import Mathlib

/-!
Verification of the HappyHomeBE core logic.

This file gives a shallow embedding of the two logic-bearing functions of
the repository and proves properties about them:

* `validateBlock` from `src/config/blockSchemas.js`, together with the six
  block schemas of `BLOCK_SCHEMAS`;
* `validateBookingRequest` from `src/validator/bookingValidator.js`.

JavaScript runtime values are modelled by the inductive type `JVal`
(numbers as `Int`; the data appearing in this repository is integral and
no claim depends on float rounding).  A JavaScript exception (the code can
throw a `TypeError` when reading a property of `null`/`undefined`) is
modelled by the `Except Unit` monad: `.error ()` means the function threw.
-/

namespace HappyHome

/-- Model of a JavaScript runtime value.  `undefined` is the JS undefined
value (an absent object property reads as it); `obj` is a plain object
given as an association list in insertion order. -/
inductive JVal where
  | undefined : JVal
  | null : JVal
  | bool : Bool → JVal
  | num : Int → JVal
  | str : String → JVal
  | arr : List JVal → JVal
  | obj : List (String × JVal) → JVal
deriving Repr

/-- One entry of an `itemSchema` in `BLOCK_SCHEMAS` (a sub-field rule).
The JS code only ever reads `type`, `label`, `required` and `min` of a
sub-field rule; `options` and `defaultVal` are carried for completeness. -/
structure SubFieldConfig where
  type : String
  label : String
  required : Bool := false
  min : Option Int := none
  options : Option (List String) := none
  defaultVal : Option JVal := none

/-- One field rule of a block schema, as written in `BLOCK_SCHEMAS`. -/
structure FieldConfig where
  type : String
  label : Option String := none
  required : Bool := false
  minItems : Option Int := none
  maxItems : Option Int := none
  itemSchema : Option (List (String × SubFieldConfig)) := none
  defaultVal : Option JVal := none

/-- A block schema: one entry of `BLOCK_SCHEMAS`.  `fields` keeps the JS
object insertion order, which is the order `Object.entries` iterates. -/
structure BlockSchema where
  type : String
  name : String
  description : String
  fields : List (String × FieldConfig)
  defaultData : List (String × JVal)

/-- The result object `{ valid, errors }` returned by `validateBlock`. -/
structure ValidationResult where
  valid : Bool
  errors : List String
deriving Repr, DecidableEq

/-- JS truthiness of a value (`if (value)`). -/
def toBool : JVal → Bool
  | .undefined => false
  | .null => false
  | .bool b => b
  | .num n => !(n == 0)
  | .str s => !(s == "")
  | .arr _ => true
  | .obj _ => true

/-- `Array.isArray(value)`. -/
def isArray : JVal → Bool
  | .arr _ => true
  | _ => false

/-- The emptiness test of the validator:
`value === undefined || value === null || value === ''`. -/
def isEmptyJs : JVal → Bool
  | .undefined => true
  | .null => true
  | .str s => s == ""
  | _ => false

/-- `value === 0`. -/
def eqNumZero : JVal → Bool
  | .num n => n == 0
  | _ => false

/-- `value === false`. -/
def eqBoolFalse : JVal → Bool
  | .bool b => !b
  | _ => false

/-- `fieldConfig.label || fieldName` (JS falsy fallback on the label). -/
def labelOr (label : Option String) (fieldName : String) : String :=
  match label with
  | some l => if l == "" then fieldName else l
  | none => fieldName

/-- First-match lookup in an association list (JS object property read). -/
def lookupKey : List (String × JVal) → String → JVal
  | [], _ => .undefined
  | (k, v) :: rest, key => if k == key then v else lookupKey rest key

/-- Property read `v[key]`.  Reading a property of `null` or `undefined`
throws a `TypeError` (modelled as `.error ()`); reading a missing key of an
object, or any non-numeric key of a primitive or array, yields `undefined`.
(The schema field names are never numeric, so array index reads and string
index reads do not arise.) -/
def getProp : JVal → String → Except Unit JVal
  | .undefined, _ => .error ()
  | .null, _ => .error ()
  | .obj kvs, key => .ok (lookupKey kvs key)
  | _, _ => .ok .undefined

/-! ### The schema catalog `BLOCK_SCHEMAS` -/

/-- `BLOCK_SCHEMAS.intro`. -/
def introSchema : BlockSchema where
  type := "intro"
  name := "Giới thiệu"
  description := "Banner giới thiệu đầu trang"
  fields := [
    ("title", { type := "text", label := some "Tiêu đề (H1)", required := true }),
    ("banner_image_url", { type := "image", label := some "Ảnh nền Banner", required := true })]
  defaultData := [("title", .str "Dịch vụ dọn nhà"), ("banner_image_url", .str "")]

/-- `BLOCK_SCHEMAS.definition`. -/
def definitionSchema : BlockSchema where
  type := "definition"
  name := "Mô tả / Lợi ích"
  description := "Đoạn văn bản giới thiệu chi tiết"
  fields := [
    ("title", { type := "text", label := some "Tiêu đề mục", required := true }),
    ("content", { type := "richtext", label := some "Nội dung (HTML)", required := true })]
  defaultData := [("title", .str "Về dịch vụ"), ("content", .str "<p>Mô tả chi tiết...</p>")]

/-- `BLOCK_SCHEMAS.pricing`. -/
def pricingSchema : BlockSchema where
  type := "pricing"
  name := "Bảng giá"
  description := "Hiển thị bảng giá dịch vụ"
  fields := [
    ("service_title", { type := "text", label := some "Tên bảng giá", required := true }),
    ("note", { type := "textarea", label := some "Ghi chú chung", required := false }),
    ("subservices",
      { type := "array", label := some "Danh sách gói dịch vụ",
        required := true, minItems := some 1,
        itemSchema := some [
          ("id", { type := "text", label := "Mã gói (ID)", required := true }),
          ("subservice_title", { type := "text", label := "Tên gói", required := true }),
          ("price", { type := "number", label := "Giá (VNĐ)", required := true, min := some 0 })] })]
  defaultData := [("service_title", .str "Bảng giá dịch vụ"), ("subservices", .arr [])]

/-- `BLOCK_SCHEMAS.task_tab`. -/
def taskTabSchema : BlockSchema where
  type := "task_tab"
  name := "Tab công việc"
  description := "Hiển thị các tab nội dung"
  fields := [
    ("title", { type := "text", label := some "Tiêu đề chung", required := true }),
    ("tabs",
      { type := "array", label := some "Danh sách tabs",
        required := true, minItems := some 1,
        itemSchema := some [
          ("tab_title", { type := "text", label := "Tên tab", required := true }),
          ("description", { type := "richtext", label := "Nội dung", required := true }),
          ("image_url", { type := "image", label := "Hình ảnh", required := true })] })]
  defaultData := [("title", .str "Chi tiết công việc"), ("tabs", .arr [])]

/-- `BLOCK_SCHEMAS.process`. -/
def processSchema : BlockSchema where
  type := "process"
  name := "Quy trình"
  description := "Hiển thị quy trình từng bước"
  fields := [
    ("title", { type := "text", label := some "Tiêu đề quy trình", required := true }),
    ("steps",
      { type := "array", label := some "Danh sách bước",
        required := true, minItems := some 1,
        itemSchema := some [
          ("number", { type := "number", label := "Số thứ tự", required := true, min := some 1 }),
          ("step_title", { type := "text", label := "Tên bước", required := true }),
          ("description", { type := "textarea", label := "Mô tả", required := true }),
          ("image_url", { type := "image", label := "Hình ảnh", required := true })] })]
  defaultData := [("title", .str "Quy trình làm việc"), ("steps", .arr [])]

/-- `BLOCK_SCHEMAS.booking`. -/
def bookingSchema : BlockSchema where
  type := "booking"
  name := "Form đặt lịch"
  description := "Khối booking với form động"
  fields := [
    ("title", { type := "text", label := some "Tiêu đề", required := true }),
    ("image_url", { type := "image", label := some "Hình nền/ảnh", required := true }),
    ("button_text",
      { type := "text", label := some "Text nút", required := false,
        defaultVal := some (.str "Đặt ngay") }),
    ("form_schema",
      { type := "array", label := some "Cấu hình fields của Form",
        required := true,
        itemSchema := some [
          ("field_name", { type := "text", label := "Tên field (DB)", required := true }),
          ("field_type",
            { type := "select", label := "Loại field", required := true,
              options := some ["text", "select", "date", "time"] }),
          ("label", { type := "text", label := "Label hiển thị", required := true }),
          ("required",
            { type := "boolean", label := "Bắt buộc?",
              defaultVal := some (.bool false) }),
          ("options", { type := "array", label := "Options (cho select)", required := false })] })]
  defaultData := [("title", .str "Đặt lịch ngay"), ("image_url", .str ""),
    ("button_text", .str "Đặt ngay"), ("form_schema", .arr [])]

/-- The catalog lookup `BLOCK_SCHEMAS[blockType]`. -/
def BLOCK_SCHEMAS (blockType : String) : Option BlockSchema :=
  if blockType == "intro" then some introSchema
  else if blockType == "definition" then some definitionSchema
  else if blockType == "pricing" then some pricingSchema
  else if blockType == "task_tab" then some taskTabSchema
  else if blockType == "process" then some processSchema
  else if blockType == "booking" then some bookingSchema
  else none

/-! ### The validator `validateBlock` -/

/-- The top-level required-field error message. -/
def requiredMsg (fieldName : String) (cfg : FieldConfig) : String :=
  "Field \"" ++ fieldName ++ "\" (" ++ labelOr cfg.label fieldName ++ ") là bắt buộc"

/-- The required check of step 1 of `validateBlock`: the error it pushes,
if any.  The condition transcribes
`isEmpty && value !== 0 && value !== false` with
`isEmpty = value === undefined || value === null || value === ''`,
guarded by `fieldConfig.required`. -/
def requiredCheck (fieldName : String) (cfg : FieldConfig) (value : JVal) : List String :=
  if cfg.required && isEmptyJs value && !eqNumZero value && !eqBoolFalse value then
    [requiredMsg fieldName cfg]
  else []

/-- The required check for one sub-field of an array item (same emptiness
logic as the top-level check, with the `field[i].subField` error path). -/
def subRequiredCheck (fieldName : String) (index : Nat) (subFieldName : String)
    (subCfg : SubFieldConfig) (subValue : JVal) : List String :=
  if subCfg.required && isEmptyJs subValue && !eqNumZero subValue && !eqBoolFalse subValue then
    [fieldName ++ "[" ++ toString index ++ "]." ++ subFieldName ++
      " (" ++ subCfg.label ++ ") là bắt buộc"]
  else []

/-- The minimum-bound check for one sub-field of an array item:
`if (subFieldConfig.type === 'number')` and then
`typeof subValue === 'number' && subFieldConfig.min !== undefined && subValue < min`. -/
def subMinCheck (fieldName : String) (index : Nat) (subFieldName : String)
    (subCfg : SubFieldConfig) (subValue : JVal) : List String :=
  if subCfg.type == "number" then
    match subValue, subCfg.min with
    | .num n, some m =>
        if n < m then
          [fieldName ++ "[" ++ toString index ++ "]." ++ subFieldName ++
            " phải lớn hơn hoặc bằng " ++ toString m]
        else []
    | _, _ => []
  else []

/-- Validation of one sub-field of one array item.  The property read
`item[subFieldName]` can throw when the item is `null` or `undefined`. -/
def checkSubField (fieldName : String) (index : Nat) (item : JVal)
    (subFieldName : String) (subCfg : SubFieldConfig) : Except Unit (List String) := do
  let subValue ← getProp item subFieldName
  pure (subRequiredCheck fieldName index subFieldName subCfg subValue ++
        subMinCheck fieldName index subFieldName subCfg subValue)

/-- Validation of one array item against every sub-field rule, in schema
order. -/
def checkItem (fieldName : String) (index : Nat)
    (subs : List (String × SubFieldConfig)) (item : JVal) : Except Unit (List String) :=
  match subs with
  | [] => .ok []
  | (subFieldName, subCfg) :: rest => do
      let es ← checkSubField fieldName index item subFieldName subCfg
      let more ← checkItem fieldName index rest item
      pure (es ++ more)

/-- The `value.forEach((item, index) => ...)` loop of the item-level pass. -/
def checkItems (fieldName : String) (subs : List (String × SubFieldConfig))
    (items : List JVal) (index : Nat) : Except Unit (List String) :=
  match items with
  | [] => .ok []
  | item :: rest => do
      let es ← checkItem fieldName index subs item
      let more ← checkItems fieldName subs rest (index + 1)
      pure (es ++ more)

/-- The `minItems`/`maxItems` cardinality errors.  The JS guards
`fieldConfig.minItems && ...` and `fieldConfig.maxItems && ...` test the
bound for truthiness, so a configured bound of `0` is skipped. -/
def cardinalityErrors (fieldName : String) (cfg : FieldConfig)
    (items : List JVal) : List String :=
  (match cfg.minItems with
   | some m =>
      if m ≠ 0 ∧ (items.length : Int) < m then
        ["Field \"" ++ fieldName ++ "\" cần tối thiểu " ++ toString m ++ " phần tử"]
      else []
   | none => []) ++
  (match cfg.maxItems with
   | some m =>
      if m ≠ 0 ∧ (items.length : Int) > m then
        ["Field \"" ++ fieldName ++ "\" chỉ được tối đa " ++ toString m ++ " phần tử"]
      else []
   | none => [])

/-- The item-level pass, run when `fieldConfig.itemSchema` is configured. -/
def itemLevelErrors (fieldName : String) (cfg : FieldConfig)
    (items : List JVal) : Except Unit (List String) :=
  match cfg.itemSchema with
  | none => .ok []
  | some subs => checkItems fieldName subs items 0

/-- The body of the `Object.entries(schema.fields).forEach` callback for one
field: required check (with early `return` on failure), then the array
checks.  The cardinality errors are pushed before the item-level pass runs. -/
def validateField (fieldName : String) (cfg : FieldConfig) (value : JVal) :
    Except Unit (List String) :=
  if cfg.required && isEmptyJs value && !eqNumZero value && !eqBoolFalse value then
    .ok [requiredMsg fieldName cfg]
  else if cfg.type == "array" then
    if toBool value && !isArray value then
      .ok ["Field \"" ++ fieldName ++ "\" phải là danh sách (array)"]
    else
      match value with
      | .arr items => do
          let ies ← itemLevelErrors fieldName cfg items
          pure (cardinalityErrors fieldName cfg items ++ ies)
      | _ => .ok []
  else .ok []

/-- The loop over `Object.entries(schema.fields)`, accumulating errors.
The property read `blockData[fieldName]` happens for every field and can
throw when `blockData` is `null` or `undefined`. -/
def validateFields (fields : List (String × FieldConfig)) (blockData : JVal) :
    Except Unit (List String) :=
  match fields with
  | [] => .ok []
  | (fieldName, cfg) :: rest => do
      let value ← getProp blockData fieldName
      let es ← validateField fieldName cfg value
      let more ← validateFields rest blockData
      pure (es ++ more)

/-- `validateBlock(blockType, blockData)` from `src/config/blockSchemas.js`.
`.error ()` models a thrown JS exception. -/
def validateBlock (blockType : String) (blockData : JVal) :
    Except Unit ValidationResult :=
  match BLOCK_SCHEMAS blockType with
  | none =>
      .ok { valid := false,
            errors := ["Block type \"" ++ blockType ++ "\" không tồn tại"] }
  | some schema => do
      let errors ← validateFields schema.fields blockData
      pure { valid := errors.isEmpty, errors := errors }

deriving instance DecidableEq for Except

/-! ### The booking validator `validateBookingRequest` -/

/-- The rejection reasons of `validateBookingRequest`, one per early
`res.status(400)` return of the middleware. -/
inductive BookingError where
  | missingData
  | invalidTimeFormat
  | tooSoon
  | tooFar
  | outsideHours
deriving Repr, DecidableEq

/-- Numeric value of a decimal digit character. -/
def digitVal (c : Char) : Nat := c.toNat - 48

/-- The maximal leading run of decimal digits. -/
def leadingDigits (cs : List Char) : List Char := cs.takeWhile Char.isDigit

/-- Decimal value of a digit list. -/
def digitsToNat (ds : List Char) : Nat := ds.foldl (fun acc c => acc * 10 + digitVal c) 0

/-- Model of `parseInt(s)` with the default radix 10: skip leading spaces,
an optional sign, then the leading run of decimal digits; `none` models
`NaN` (no digits). -/
def jsParseInt (s : String) : Option Int :=
  let cs := s.toList.dropWhile (fun c => c == ' ')
  match cs with
  | '-' :: rest =>
      if leadingDigits rest = [] then none
      else some (-(digitsToNat (leadingDigits rest) : Int))
  | '+' :: rest =>
      if leadingDigits rest = [] then none
      else some ((digitsToNat (leadingDigits rest) : Int))
  | _ =>
      if leadingDigits cs = [] then none
      else some ((digitsToNat (leadingDigits cs) : Int))

/-- `booking_time.split(':')[0]`: the part of the string before the first
colon (the whole string when there is no colon). -/
def hourString (booking_time : String) : String :=
  String.mk (booking_time.toList.takeWhile (fun c => c ≠ ':'))

/-- `validateBookingRequest` from `src/validator/bookingValidator.js`,
as a function of the request data.  Times are epoch milliseconds (`Int`).

  * `booking_date` and `booking_time` are the strings of `booking_data`;
    the JS guard `!booking_data.booking_date || !booking_data.booking_time`
    is string truthiness, i.e. a non-empty-string test.
  * `bookingMs` is the result of
    `new Date(booking_date + "T" + booking_time + ":00+07:00").getTime()`:
    the external `Date` parse is treated as an oracle input, `none`
    modelling `NaN` (the invalid-format branch).
  * `nowMs` is `Date.now()`; the four configuration integers come from the
    environment with defaults 30, 7, 7 and 19.

When `parseInt` of the hour digits is `NaN` both comparisons of the
working-hours check are false, so the check passes; the `match` mirrors
that. -/
def validateBookingRequest (booking_date booking_time : String)
    (bookingMs : Option Int) (nowMs : Int)
    (bufferMinutes advanceDays workStartHour workEndHour : Int) :
    Except BookingError Unit :=
  if booking_date == "" || booking_time == "" then .error .missingData
  else
    match bookingMs with
    | none => .error .invalidTimeFormat
    | some ms =>
      if ms < nowMs + bufferMinutes * 60000 then .error .tooSoon
      else if ms > nowMs + advanceDays * 24 * 60 * 60 * 1000 then .error .tooFar
      else
        match jsParseInt (hourString booking_time) with
        | none => .ok ()
        | some hour =>
          if hour < workStartHour ∨ hour ≥ workEndHour then .error .outsideHours
          else .ok ()

/-! ### Claim theorems -/

/-- C1: for every field rule and every data value, `validateBlock` never
emits a required-field error for a top-level field whose value is the
number `0` or the boolean `false` (indeed the whole per-field check emits
no error at all for such a value), and the item-level required check of a
sub-field likewise emits nothing, even when the rule has `required: true`.
`validateField` and `subRequiredCheck` are exactly the per-field and
per-sub-field checks `validateBlock` runs on every schema field. -/
theorem falsy_zero_false_not_required_error
    (fieldName fn sn : String) (idx : Nat) (cfg : FieldConfig)
    (subCfg : SubFieldConfig) (v : JVal)
    (h : v = JVal.num 0 ∨ v = JVal.bool false) :
    validateField fieldName cfg v = .ok [] ∧
    subRequiredCheck fn idx sn subCfg v = [] := by
  rcases h with h | h <;> subst h <;>
    exact ⟨by unfold validateField; split <;> simp_all [isEmptyJs, toBool, eqNumZero,
        eqBoolFalse, isArray],
      by simp [subRequiredCheck, isEmptyJs]⟩

/-- Witness for C1 at the value `0` against `required: true` rules taken
from the `intro` and `pricing` schemas. -/
theorem falsy_zero_false_not_required_error_witness :
    (JVal.num 0 = JVal.num 0 ∨ JVal.num 0 = JVal.bool false) ∧
    validateField "title" { type := "text", label := some "Tiêu đề (H1)", required := true }
      (JVal.num 0) = .ok [] ∧
    subRequiredCheck "subservices" 0 "price"
      { type := "number", label := "Giá (VNĐ)", required := true, min := some 0 }
      (JVal.num 0) = [] :=
  ⟨Or.inl rfl,
   (falsy_zero_false_not_required_error "title" "subservices" "price" 0
      { type := "text", label := some "Tiêu đề (H1)", required := true }
      { type := "number", label := "Giá (VNĐ)", required := true, min := some 0 }
      (JVal.num 0) (Or.inl rfl)).1,
   (falsy_zero_false_not_required_error "title" "subservices" "price" 0
      { type := "text", label := some "Tiêu đề (H1)", required := true }
      { type := "number", label := "Giá (VNĐ)", required := true, min := some 0 }
      (JVal.num 0) (Or.inl rfl)).2⟩

/-- C4: for every `blockType` string without a schema and every data value
whatsoever (even `null`, which would throw if any property of it were
read), `validateBlock` returns `valid = false` with exactly one error, and
that error names the unrecognized block type.  The result is the same for
every `blockData`, which shows no field of the data is read or checked. -/
theorem unknown_block_type_fails_closed (blockType : String) (blockData : JVal)
    (h : BLOCK_SCHEMAS blockType = none) :
    validateBlock blockType blockData =
      .ok { valid := false,
            errors := ["Block type \"" ++ blockType ++ "\" không tồn tại"] } := by
  simp [validateBlock, h]

/-- Witness for C4 at `validate("not_a_type", null)`: fails closed without
reading the (unreadable) data. -/
theorem unknown_block_type_fails_closed_witness :
    BLOCK_SCHEMAS "not_a_type" = none ∧
    validateBlock "not_a_type" JVal.null =
      .ok { valid := false, errors := ["Block type \"not_a_type\" không tồn tại"] } :=
  ⟨rfl, unknown_block_type_fails_closed "not_a_type" JVal.null rfl⟩

/-- C6: validating the `pricing` block type against
`{service_title: "X", subservices: [{id: "a", subservice_title: "A"}]}`
(the item missing `price`) returns `valid = false` with exactly one error,
and that error references the path `subservices[0].price`. -/
theorem pricing_missing_price_single_error :
    validateBlock "pricing" (JVal.obj [("service_title", .str "X"),
      ("subservices", .arr [JVal.obj [("id", .str "a"), ("subservice_title", .str "A")]])]) =
    .ok { valid := false, errors := ["subservices[0].price (Giá (VNĐ)) là bắt buộc"] } := by
  decide

/-- C9 is false of the code: `validateBlock` CAN throw.  With a known block
type and `null` data, the property read `blockData[fieldName]` throws a
`TypeError` before any result object is built; the same happens for an
array item that is `null` when the item-level pass reads its sub-fields.
`.error ()` is the model of the thrown exception. -/
theorem validateBlock_throws_on_null_data :
    validateBlock "intro" JVal.null = .error () ∧
    validateBlock "pricing" (JVal.obj [("service_title", .str "X"),
      ("subservices", .arr [JVal.null])]) = .error () :=
  ⟨by decide, by decide⟩

/-- Counterexample to C5 as stated: for the `booking` schema the
`form_schema` rule has kind `array`; the value `0` is present in the sense
of the claim (not absent, not `null`, and it does not fail the required
check, since `0` is exempt) and is not a sequence, yet `validateBlock`
emits NO type-mismatch error at all: the guard `if (value && ...)` tests
JS truthiness, and `0` is falsy, so the whole array check is skipped and
the block validates cleanly. -/
theorem array_check_skips_falsy_cex :
    validateBlock "booking" (JVal.obj [("title", .str "t"), ("image_url", .str "u"),
      ("form_schema", JVal.num 0)]) = .ok { valid := true, errors := [] } := by
  decide

/-- C5 amended: the type-mismatch error fires exactly for TRUTHY
non-sequence values.  For every array-kind field rule, whenever the data
value is truthy (not `undefined`, `null`, `false`, `0` or `""`) and not a
sequence, `validateField` emits exactly the type-mismatch error for the
field and performs no further checks on it. -/
theorem array_mismatch_on_truthy_nonarray
    (fieldName : String) (cfg : FieldConfig) (v : JVal)
    (hty : cfg.type = "array") (htrue : toBool v = true) (hnarr : isArray v = false) :
    validateField fieldName cfg v =
      .ok ["Field \"" ++ fieldName ++ "\" phải là danh sách (array)"] := by
  have hemp : isEmptyJs v = false := by
    cases v <;> simp_all [toBool, isEmptyJs]
  unfold validateField
  simp [hemp, hty, htrue, hnarr]

/-- Witness for the amended C5: a truthy string in the `form_schema` slot
yields exactly the type-mismatch error. -/
theorem array_mismatch_on_truthy_nonarray_witness :
    toBool (JVal.str "x") = true ∧ isArray (JVal.str "x") = false ∧
    validateField "form_schema"
      { type := "array", label := some "Cấu hình fields của Form", required := true }
      (JVal.str "x") = .ok ["Field \"form_schema\" phải là danh sách (array)"] :=
  ⟨rfl, rfl,
   array_mismatch_on_truthy_nonarray "form_schema"
     { type := "array", label := some "Cấu hình fields của Form", required := true }
     (JVal.str "x") rfl rfl rfl⟩

/-- C7: for every array-kind rule with a configured (nonzero, as decided
by the JS truthiness guards on the bounds) `minItems` or `maxItems` and
every sequence violating that bound, `validateField` emits the cardinality
error, and its output is always the cardinality errors followed by the
result of the item-level pass, so the violation does not prevent the item
pass from running.  In particular a `process` block with `steps: []`
yields exactly the `minItems: 1` cardinality error for `steps` and no
item-level errors. -/
theorem cardinality_error_and_item_pass
    (fieldName : String) (cfg : FieldConfig) (items : List JVal) (m : Int)
    (hty : cfg.type = "array")
    (hviol : (cfg.minItems = some m ∧ m ≠ 0 ∧ (items.length : Int) < m) ∨
             (cfg.maxItems = some m ∧ m ≠ 0 ∧ (items.length : Int) > m)) :
    validateField fieldName cfg (JVal.arr items) =
      (itemLevelErrors fieldName cfg items).map
        (fun ies => cardinalityErrors fieldName cfg items ++ ies) ∧
    cardinalityErrors fieldName cfg items ≠ [] ∧
    validateBlock "process" (JVal.obj [("title", .str "t"), ("steps", .arr [])]) =
      .ok { valid := false, errors := ["Field \"steps\" cần tối thiểu 1 phần tử"] } := by
  refine ⟨?_, ?_, by decide⟩
  · unfold validateField
    simp only [isEmptyJs, toBool, isArray, hty]
    simp only [Bool.and_false, Bool.false_and, Bool.and_true, Bool.not_true, beq_self_eq_true,
      if_true, if_false]
    cases h : itemLevelErrors fieldName cfg items <;>
      simp [h, Except.map, Bind.bind, Except.bind, Pure.pure, Except.pure]
  · unfold cardinalityErrors
    rcases hviol with ⟨h1, h2, h3⟩ | ⟨h1, h2, h3⟩
    · rw [h1]
      simp [h2, h3]
    · rw [h1]
      simp [h2, h3]

/-- Witness for C7: the (empty) `steps` sequence against the `minItems: 1`
rule of the `process` schema. -/
theorem cardinality_error_and_item_pass_witness :
    (({ type := "array", label := some "Danh sách bước", required := true,
        minItems := some 1 } : FieldConfig).type = "array") ∧
    cardinalityErrors "steps"
      { type := "array", label := some "Danh sách bước", required := true,
        minItems := some 1 } [] ≠ [] :=
  ⟨rfl,
   (cardinality_error_and_item_pass "steps"
      { type := "array", label := some "Danh sách bước", required := true,
        minItems := some 1 } [] 1 rfl
      (Or.inl ⟨rfl, by decide, by decide⟩)).2.1⟩

/-- C8: for every item-level sub-field rule of kind `number` with a
configured `min`, the minimum-bound check emits an error exactly when the
sub-value is numeric at runtime and below the bound; any present
non-numeric sub-value is silently skipped.  `subMinCheck` is exactly the
bound check the item-level pass of `validateBlock` runs. -/
theorem sub_number_min_only_numeric
    (fn sn : String) (idx : Nat) (sc : SubFieldConfig) (sv : JVal) (m : Int)
    (hty : sc.type = "number") (hm : sc.min = some m) :
    subMinCheck fn idx sn sc sv ≠ [] ↔ ∃ n : Int, sv = JVal.num n ∧ n < m := by
  cases sv <;> simp [subMinCheck, hty, hm]

/-- Witness for C8: `price` with `min: 0` fires on `-5` and is
characterized by the numeric-and-below-bound condition. -/
theorem sub_number_min_only_numeric_witness :
    (({ type := "number", label := "Giá (VNĐ)", required := true,
        min := some 0 } : SubFieldConfig).type = "number") ∧
    (subMinCheck "subservices" 0 "price"
      { type := "number", label := "Giá (VNĐ)", required := true, min := some 0 }
      (JVal.num (-5)) ≠ [] ↔ ∃ n : Int, JVal.num (-5) = JVal.num n ∧ n < 0) :=
  ⟨rfl,
   sub_number_min_only_numeric "subservices" "price" 0
     { type := "number", label := "Giá (VNĐ)", required := true, min := some 0 }
     (JVal.num (-5)) 0 rfl rfl⟩

/-- C10: for every field rule whose kind is not `array`, the per-field
check of `validateBlock` is exactly the required-emptiness check — no type
check, no `options` check, no top-level `min`/`max` bound check — so any
present non-empty value of any runtime type passes the field without
error. -/
theorem non_array_fields_only_required_check
    (fieldName : String) (cfg : FieldConfig) (v : JVal)
    (hty : cfg.type ≠ "array") :
    validateField fieldName cfg v = .ok (requiredCheck fieldName cfg v) ∧
    (isEmptyJs v = false → requiredCheck fieldName cfg v = []) := by
  constructor
  · unfold validateField requiredCheck
    by_cases hc : (cfg.required && isEmptyJs v && !eqNumZero v && !eqBoolFalse v) = true
    · simp [hc]
    · simp [hc, hty]
  · intro he
    simp [requiredCheck, he]

/-- Witness for C10: a `select`-kind rule (from the booking form schema
family) applied to a number: no options check, no error. -/
theorem non_array_fields_only_required_check_witness :
    (({ type := "select", label := some "Loại field", required := true } :
        FieldConfig).type ≠ "array") ∧
    validateField "field_type"
      { type := "select", label := some "Loại field", required := true }
      (JVal.num 42) =
      .ok (requiredCheck "field_type"
        { type := "select", label := some "Loại field", required := true } (JVal.num 42)) ∧
    (isEmptyJs (JVal.num 42) = false →
      requiredCheck "field_type"
        { type := "select", label := some "Loại field", required := true }
        (JVal.num 42) = []) :=
  ⟨by decide,
   (non_array_fields_only_required_check "field_type"
      { type := "select", label := some "Loại field", required := true }
      (JVal.num 42) (by decide)).1,
   (non_array_fields_only_required_check "field_type"
      { type := "select", label := some "Loại field", required := true }
      (JVal.num 42) (by decide)).2⟩

/-- C2: the checks run in source order, first failure wins.  The too-soon
check rejects exactly when `candidateStart < now + bufferMinutes` (in
milliseconds, `ms < now + B * 60000`), so a candidate at exactly
`now + B` minutes passes it and one a minute earlier is rejected; and once
the too-soon check has passed, the too-far check rejects exactly when
`candidateStart > now + advanceDays` 24-hour days, so a candidate at
exactly `now + D` days passes it.  The boundary instances are in the
witness. -/
theorem booking_window_boundaries
    (bd bt : String) (ms now B D ws we : Int)
    (hbd : bd ≠ "") (hbt : bt ≠ "") :
    (validateBookingRequest bd bt (some ms) now B D ws we = .error .tooSoon ↔
        ms < now + B * 60000) ∧
    (¬ ms < now + B * 60000 →
      (validateBookingRequest bd bt (some ms) now B D ws we = .error .tooFar ↔
        ms > now + D * 24 * 60 * 60 * 1000)) := by
  unfold validateBookingRequest
  have h0 : (bd == "" || bt == "") = false := by simp [hbd, hbt]
  rw [h0]
  by_cases h1 : ms < now + B * 60000
  · simp [h1]
  · simp only [if_neg h1, Bool.false_eq_true, if_false]
    by_cases h2 : ms > now + D * 24 * 60 * 60 * 1000
    · simp [h1, h2]
    · simp only [if_neg h2]
      cases hjp : jsParseInt (hourString bt) <;> simp [hjp, h1, h2]
      split <;> simp

/-- Witness for C2 at the defaults `bufferMinutes = 30`, `advanceDays = 7`
and `now = 0`: `T + 29` minutes is rejected too-soon, `T + 30` minutes is
not, and `T + 7` days (`604800000` ms) is not rejected too-far. -/
theorem booking_window_boundaries_witness :
    ("2025-01-01" : String) ≠ "" ∧
    validateBookingRequest "2025-01-01" "09:00" (some 1740000) 0 30 7 7 19 =
      .error .tooSoon ∧
    validateBookingRequest "2025-01-01" "09:00" (some 1800000) 0 30 7 7 19 ≠
      .error .tooSoon ∧
    validateBookingRequest "2025-01-01" "09:00" (some 604800000) 0 30 7 7 19 ≠
      .error .tooFar := by
  refine ⟨by decide, ?_, ?_, ?_⟩
  · exact (booking_window_boundaries "2025-01-01" "09:00" 1740000 0 30 7 7 19
      (by decide) (by decide)).1.mpr (by decide)
  · intro hcon
    exact absurd ((booking_window_boundaries "2025-01-01" "09:00" 1800000 0 30 7 7 19
      (by decide) (by decide)).1.mp hcon) (by decide)
  · intro hcon
    exact absurd (((booking_window_boundaries "2025-01-01" "09:00" 604800000 0 30 7 7 19
      (by decide) (by decide)).2 (by decide)).mp hcon) (by decide)

/-- C3: once the window checks pass, the working-hours check depends only
on the literal hour component of the submitted `booking_time` string (the
digits before the first colon, via `split(':')` and `parseInt`), not on
anything recomputed from the parsed instant: two time strings with the
same pre-colon prefix give the same outcome for every parsed instant, the
outside-hours rejection holds exactly when that submitted hour `h`
satisfies `h < workStartHour` or `h ≥ workEndHour`, and with hours 7 and
19 a submitted `"07:00"` passes while `"19:00"` is rejected. -/
theorem working_hours_uses_submitted_hour
    (bd t t2 : String) (ms now B D ws we : Int)
    (hbd : bd ≠ "") (ht : t ≠ "") (ht2 : t2 ≠ "")
    (hlo : ¬ ms < now + B * 60000)
    (hhi : ¬ ms > now + D * 24 * 60 * 60 * 1000)
    (hsame : hourString t = hourString t2) :
    validateBookingRequest bd t (some ms) now B D ws we =
      validateBookingRequest bd t2 (some ms) now B D ws we ∧
    (validateBookingRequest bd t (some ms) now B D ws we = .error .outsideHours ↔
      ∃ h : Int, jsParseInt (hourString t) = some h ∧ (h < ws ∨ h ≥ we)) ∧
    validateBookingRequest bd "07:00" (some ms) now B D 7 19 = .ok () ∧
    validateBookingRequest bd "19:00" (some ms) now B D 7 19 = .error .outsideHours := by
  unfold validateBookingRequest
  have h0 : (bd == "" || t == "") = false := by simp [hbd, ht]
  have h0b : (bd == "" || t2 == "") = false := by simp [hbd, ht2]
  have h0c : (bd == "" || ("07:00" : String) == "") = false := by simp [hbd]
  have h0d : (bd == "" || ("19:00" : String) == "") = false := by simp [hbd]
  rw [h0, h0b, h0c, h0d]
  simp only [Bool.false_eq_true, if_false, if_neg hlo, if_neg hhi]
  refine ⟨by rw [hsame], ?_, by decide, by decide⟩
  cases hjp : jsParseInt (hourString t) <;> simp [hjp]
  omega

/-- Witness for C3: `"07:30"` and `"07:45"` share the submitted hour `7`
and get the same verdict; with `workStartHour = 8` that hour is rejected
outside-hours; and the boundary instances `"07:00"` in, `"19:00"` out hold
at the default hours 7 and 19. -/
theorem working_hours_uses_submitted_hour_witness :
    hourString "07:30" = hourString "07:45" ∧
    validateBookingRequest "2025-01-01" "07:30" (some 1800000) 0 30 7 8 19 =
      validateBookingRequest "2025-01-01" "07:45" (some 1800000) 0 30 7 8 19 ∧
    validateBookingRequest "2025-01-01" "07:30" (some 1800000) 0 30 7 8 19 =
      .error .outsideHours ∧
    validateBookingRequest "2025-01-01" "07:00" (some 1800000) 0 30 7 7 19 = .ok () ∧
    validateBookingRequest "2025-01-01" "19:00" (some 1800000) 0 30 7 7 19 =
      .error .outsideHours := by
  have h := working_hours_uses_submitted_hour "2025-01-01" "07:30" "07:45" 1800000 0 30 7 8 19
    (by decide) (by decide) (by decide) (by decide) (by decide) (by decide)
  exact ⟨by decide, h.1, h.2.1.mpr ⟨7, by decide, Or.inl (by decide)⟩, h.2.2.1, h.2.2.2⟩

end HappyHome
